import Mathlib

/-!
# Verification of the social_app real-time messaging subsystem

Shallow embedding of the presence / messaging / notification subsystem of the
repository (server/socket/socketHandlers.js, server/routes/message.routes.js,
server/routes/like.routes.js, the notification routes, and the Prisma schema).

Conventions of the embedding:
* socket ids and row ids are `Nat`, user ids are `String` (opaque keys);
* `activeConnections` (a JS `Map`) is an association list with JS `Map`
  semantics (`set` replaces in place, `delete` filters, `has`/`get` scan);
* socket.io room `user:${u}` contains exactly the live sockets whose
  authenticated user is `u` (every socket joins its own user room on
  connection and leaves all rooms when the transport closes);
* `socket.to(room).emit(...)` reaches every socket in the room EXCEPT the
  emitting socket; `io.emit(...)` reaches every connected socket;
* the persistence collaborator is PostgreSQL via Prisma: `create` on a row
  whose foreign key references a missing user throws (P2003), `update` on a
  missing primary key throws (P2025); thrown errors inside an event handler
  are caught at the handler boundary (try/catch) and only logged, so the
  handler returns normally with no state change and no emits;
* each handler is a function `State → args → State × List Emit`, where an
  `Emit` records the event payload and the socket ids that receive it.
-/

namespace SocialApp

/-- A live socket.io connection: transport socket id plus the authenticated
user id that the JWT middleware attached (`socket.user.id`). -/
structure Conn where
  sid : Nat
  uid : String
  deriving Repr, DecidableEq

/-- A persisted `Message` row (Prisma model `Message`): id, content,
senderId, receiverId, isRead (default false). `createdAt` is represented by
the position in the append-only message list. -/
structure Message where
  mid : Nat
  content : String
  senderId : String
  receiverId : String
  isRead : Bool
  deriving Repr, DecidableEq

/-- The `NotificationType` enum of the Prisma schema. -/
inductive NotificationType where
  | LIKE | COMMENT | FOLLOW | MESSAGE
  deriving Repr, DecidableEq

/-- A persisted `Notification` row: type, optional actorId, optional
entityId (a post id). -/
structure Notification where
  nid : Nat
  ntype : NotificationType
  actorId : Option String
  entityId : Option Nat
  deriving Repr, DecidableEq

/-- A persisted `NotificationReceiver` row: join entity between a
notification and a recipient user, with its own isRead flag (default
false). -/
structure NotificationReceiver where
  rid : Nat
  notificationId : Nat
  userId : String
  isRead : Bool
  deriving Repr, DecidableEq

/-- A persisted `Post` row (only the fields the verified claims touch:
id and owner). -/
structure Post where
  pid : Nat
  userId : String
  deriving Repr, DecidableEq

/-- A persisted `Like` row. -/
structure Like where
  lid : Nat
  userId : String
  postId : Nat
  deriving Repr, DecidableEq

/-- The whole server state: the persistence collaborator's tables plus the
in-memory connection layer (`conns` = live sockets, `active` = the
`activeConnections` map). `next…` counters model Prisma's id generation. -/
structure ServerState where
  users : List String
  conns : List Conn
  active : List (String × Nat)
  messages : List Message
  notifs : List Notification
  nreceivers : List NotificationReceiver
  posts : List Post
  likes : List Like
  nextMid : Nat
  nextNid : Nat
  nextRid : Nat
  nextLid : Nat
  deriving Repr

/-- The empty cold-start state (registry rebuilt empty on restart) with a
given user table. -/
def initState (users : List String) : ServerState :=
  ⟨users, [], [], [], [], [], [], [], 0, 0, 0, 0⟩

/-! ## JS `Map` semantics for `activeConnections` -/

/-- JS `Map.prototype.set`: replace in place if the key exists, else append. -/
def mapSet (m : List (String × Nat)) (k : String) (v : Nat) :
    List (String × Nat) :=
  if m.any (fun p => p.1 = k) then
    m.map (fun p => if p.1 = k then (k, v) else p)
  else m ++ [(k, v)]

/-- JS `Map.prototype.delete`. -/
def mapDelete (m : List (String × Nat)) (k : String) : List (String × Nat) :=
  m.filter (fun p => ¬ p.1 = k)

/-- JS `Map.prototype.get`. -/
def mapGet (m : List (String × Nat)) (k : String) : Option Nat :=
  (m.find? (fun p => p.1 = k)).map (fun p => p.2)

/-- JS `Map.prototype.has`. -/
def mapHas (m : List (String × Nat)) (k : String) : Bool :=
  (m.find? (fun p => p.1 = k)).isSome

/-! ## Events emitted to sockets -/

/-- The payload of a server→client emit, one constructor per event name used
by socketHandlers.js. -/
inductive Payload where
  | userStatus (uid : String) (online : Bool)
  | messageReceive (m : Message)
  | notificationNew
  | messageRead (mid : Nat)
  | messageTyping (uid : String) (isTyping : Bool)
  deriving Repr, DecidableEq

/-- One emit: the payload together with the socket ids that receive it. -/
structure Emit where
  recipients : List Nat
  payload : Payload
  deriving Repr, DecidableEq

/-- Socket ids currently in room `user:${u}`, minus the emitting socket:
the receiver set of `socket.to(`user:u`).emit(...)`. -/
def socketTo (s : ServerState) (u : String) (senderSid : Nat) : List Nat :=
  ((s.conns.filter (fun c => c.uid = u)).map (fun c => c.sid)).filter
    (fun x => ¬ x = senderSid)

/-- Socket ids of all connected sockets: the receiver set of `io.emit`. -/
def ioEmitAll (s : ServerState) : List Nat :=
  s.conns.map (fun c => c.sid)

/-- Total number of `message:receive` deliveries in a list of emits
(an emit to n sockets counts n deliveries). -/
def messageDeliveries (es : List Emit) : Nat :=
  (es.map (fun e =>
    match e.payload with
    | .messageReceive _ => e.recipients.length
    | _ => 0)).sum

/-- Number of `message:read` deliveries in a list of emits. -/
def messageReadDeliveries (es : List Emit) : Nat :=
  (es.map (fun e =>
    match e.payload with
    | .messageRead _ => e.recipients.length
    | _ => 0)).sum

/-! ## Socket handlers (socketHandlers.js) -/

/-- The `io.on('connection')` handler: the new socket (already accepted by
the transport, so it is part of the connected set) is stored in
`activeConnections` (`set userId → socket.id`), `io.emit('user:status',
{userId, status:'online'})` is broadcast to every connected socket
including the new one, and the socket joins room `user:${userId}`. -/
def handleConnection (s : ServerState) (sid : Nat) (uid : String) :
    ServerState × List Emit :=
  let conns' := s.conns ++ [⟨sid, uid⟩]
  let s' := { s with conns := conns', active := mapSet s.active uid sid }
  (s', [⟨conns'.map (fun c => c.sid), .userStatus uid true⟩])

/-- The `socket.on('disconnect')` handler of the socket `sid`: the transport
has already removed the socket (and its room memberships); the handler
closure then runs `activeConnections.delete(userId)` — unconditionally, with
no comparison of the stored socket id — and broadcasts
`io.emit('user:status', {userId, status:'offline'})` to the remaining
sockets. `userId` is the user the socket authenticated as. -/
def handleDisconnect (s : ServerState) (sid : Nat) : ServerState × List Emit :=
  match s.conns.find? (fun c => c.sid = sid) with
  | none => (s, [])
  | some c =>
    let conns' := s.conns.filter (fun d => ¬ d.sid = sid)
    let s' := { s with conns := conns', active := mapDelete s.active c.uid }
    (s', [⟨conns'.map (fun d => d.sid), .userStatus c.uid false⟩])

/-- The `socket.on('message:send')` handler (lines 52–95): no content
validation; `prisma.message.create` persists the message (the PostgreSQL
foreign keys on senderId/receiverId make the create throw P2003 when either
user is missing — the catch block then swallows the error, so nothing is
persisted and nothing is emitted); then `prisma.notification.create` with a
nested receiver create; then `socket.to(user:receiverId)` emits
`message:receive` with the persisted message and `notification:new`. -/
def handleMessageSend (s : ServerState) (senderSid : Nat)
    (receiverId content : String) : ServerState × List Emit :=
  match s.conns.find? (fun c => c.sid = senderSid) with
  | none => (s, [])
  | some c =>
    if s.users.contains c.uid ∧ s.users.contains receiverId then
      let msg : Message := ⟨s.nextMid, content, c.uid, receiverId, false⟩
      let ntf : Notification := ⟨s.nextNid, .MESSAGE, some c.uid, none⟩
      let nr : NotificationReceiver := ⟨s.nextRid, s.nextNid, receiverId, false⟩
      let s' := { s with
        messages := s.messages ++ [msg]
        notifs := s.notifs ++ [ntf]
        nreceivers := s.nreceivers ++ [nr]
        nextMid := s.nextMid + 1
        nextNid := s.nextNid + 1
        nextRid := s.nextRid + 1 }
      let tgts := socketTo s' receiverId senderSid
      (s', [⟨tgts, .messageReceive msg⟩, ⟨tgts, .notificationNew⟩])
    else (s, [])

/-- The `socket.on('message:read')` handler (lines 98–122):
`prisma.message.update({where:{id}, data:{isRead:true}})` — throws P2025
when no message has that id, and the catch block swallows it (no state
change, no emit, handler returns normally); otherwise the flag is set, the
message is re-fetched with `findUnique`, and if found a `message:read`
event with the message id is emitted to room `user:${senderId}` (excluding
the reader's own socket). -/
def handleMessageRead (s : ServerState) (readerSid : Nat) (messageId : Nat) :
    ServerState × List Emit :=
  if s.messages.any (fun m => m.mid = messageId) then
    let messages' := s.messages.map (fun m =>
      if m.mid = messageId then { m with isRead := true } else m)
    let s' := { s with messages := messages' }
    match messages'.find? (fun m => m.mid = messageId) with
    | some msg => (s', [⟨socketTo s' msg.senderId readerSid, .messageRead messageId⟩])
    | none => (s', [])
  else (s, [])

/-- The `isUserOnline` check exposed on `io` (lines 150–152):
`activeConnections.has(userId)`. -/
def isUserOnline (s : ServerState) (uid : String) : Bool :=
  mapHas s.active uid

/-- Registry lookup: `activeConnections.get(userId)`. -/
def lookupConnection (s : ServerState) (uid : String) : Option Nat :=
  mapGet s.active uid

/-- Prisma `message.findUnique` by message id. -/
def findMessageById (s : ServerState) (mid : Nat) : Option Message :=
  s.messages.find? (fun m => m.mid = mid)

/-! ## REST routes -/

/-- Outcome of `POST /api/messages` (message.routes.js lines 9–69). -/
inductive SendResult where
  | created (m : Message)
  | validationError
  | notFoundError
  | serverError
  deriving Repr, DecidableEq

/-- The `POST /` send-message route (message.routes.js lines 9–69):
`if (!content)` → 400 "Message content is required" (validationError);
then `prisma.user.findUnique` on the receiver, absent → 404 "Receiver not
found" (notFoundError); then the message create (senderId comes from the
verified token; a sender row deleted since token issue makes the create
throw P2003 → caught → 500 serverError) and the notification create with a
nested receiver; 201 with the message. -/
def sendMessageRoute (s : ServerState) (senderId receiverId content : String) :
    ServerState × SendResult :=
  if content = "" then (s, .validationError)
  else if ¬ s.users.contains receiverId then (s, .notFoundError)
  else if ¬ s.users.contains senderId then (s, .serverError)
  else
    let msg : Message := ⟨s.nextMid, content, senderId, receiverId, false⟩
    let ntf : Notification := ⟨s.nextNid, .MESSAGE, some senderId, none⟩
    let nr : NotificationReceiver := ⟨s.nextRid, s.nextNid, receiverId, false⟩
    let s' := { s with
      messages := s.messages ++ [msg]
      notifs := s.notifs ++ [ntf]
      nreceivers := s.nreceivers ++ [nr]
      nextMid := s.nextMid + 1
      nextNid := s.nextNid + 1
      nextRid := s.nextRid + 1 }
    (s', .created msg)

/-- The `GET /conversation/:userId` route (message.routes.js lines 72–159),
authenticated as `userId` with path parameter `peerId`: checks the peer
exists (404 otherwise, no write), reads the requested page of the
conversation (newest-first, then reversed to chronological), and then runs
`prisma.message.updateMany({where:{senderId: peer, receiverId: me,
isRead:false}, data:{isRead:true}})`. Returns the updated state, whether
the peer was found, and the page of messages as the response body
(captured before the updateMany, as in the source). The append-only
message list is in `createdAt` order, so newest-first is `List.reverse`. -/
def getConversationRoute (s : ServerState) (userId peerId : String)
    (page limit : Nat) : ServerState × Bool × List Message :=
  if ¬ s.users.contains peerId then (s, false, [])
  else
    let convo := s.messages.filter (fun m =>
      (m.senderId = userId ∧ m.receiverId = peerId) ∨
      (m.senderId = peerId ∧ m.receiverId = userId))
    let pageMsgs := (((convo.reverse).drop ((page - 1) * limit)).take limit).reverse
    let messages' := s.messages.map (fun m =>
      if m.senderId = peerId ∧ m.receiverId = userId ∧ m.isRead = false then
        { m with isRead := true }
      else m)
    ({ s with messages := messages' }, true, pageMsgs)

/-- Outcome of `POST /api/likes`. -/
inductive LikeResult where
  | liked
  | postNotFound
  | alreadyLiked
  deriving Repr, DecidableEq

/-- The `POST /` like route (like.routes.js lines 9–64): post must exist
(404 otherwise), a prior like by the same user on the same post → 400
"Post already liked"; otherwise the Like row is created and — only when
`post.userId !== req.user.id` — one LIKE Notification with one nested
NotificationReceiver for the post owner is created. -/
def likePost (s : ServerState) (userId : String) (postId : Nat) :
    ServerState × LikeResult :=
  match s.posts.find? (fun p => p.pid = postId) with
  | none => (s, .postNotFound)
  | some post =>
    if s.likes.any (fun l => l.postId = postId ∧ l.userId = userId) then
      (s, .alreadyLiked)
    else
      let like : Like := ⟨s.nextLid, userId, postId⟩
      let s1 := { s with likes := s.likes ++ [like], nextLid := s.nextLid + 1 }
      if ¬ post.userId = userId then
        let ntf : Notification := ⟨s1.nextNid, .LIKE, some userId, some postId⟩
        let nr : NotificationReceiver := ⟨s1.nextRid, s1.nextNid, post.userId, false⟩
        ({ s1 with
            notifs := s1.notifs ++ [ntf]
            nreceivers := s1.nreceivers ++ [nr]
            nextNid := s1.nextNid + 1
            nextRid := s1.nextRid + 1 }, .liked)
      else (s1, .liked)

/-- The `PUT /read-all` notification route:
`prisma.notificationReceiver.updateMany({where:{userId, isRead:false},
data:{isRead:true}})`, always answered with HTTP 200. -/
def markAllReadRoute (s : ServerState) (userId : String) : ServerState × Nat :=
  ({ s with nreceivers := s.nreceivers.map (fun r =>
      if r.userId = userId ∧ r.isRead = false then { r with isRead := true }
      else r) }, 200)

/-- The `GET /unread/count` notification route:
`prisma.notificationReceiver.count({where:{userId, isRead:false}})`. -/
def countUnreadNotifications (s : ServerState) (userId : String) : Nat :=
  (s.nreceivers.filter (fun r => r.userId = userId ∧ r.isRead = false)).length

/-- Modelled from the spec: the Notification Fanout operation
`notify(type, actorId, recipientIds, entityId?)` of §4.6 — the repository
inlines each fanout as a `prisma.notification.create` with a nested
receiver create and never passes a multi-recipient set, so the
multi-recipient operation itself is not in src/; this definition follows
the spec's words (and the Prisma nested-create semantics): one
Notification row, one unread NotificationReceiver row per recipient, and a
`notification:new` signal pushed to each currently-online recipient. -/
def notify (s : ServerState) (ntype : NotificationType)
    (actorId : Option String) (recipientIds : List String)
    (entityId : Option Nat) : ServerState × List Emit :=
  let ntf : Notification := ⟨s.nextNid, ntype, actorId, entityId⟩
  let nrs := (List.range recipientIds.length).zip recipientIds |>.map
    (fun p => (⟨s.nextRid + p.1, s.nextNid, p.2, false⟩ : NotificationReceiver))
  let s' := { s with
    notifs := s.notifs ++ [ntf]
    nreceivers := s.nreceivers ++ nrs
    nextNid := s.nextNid + 1
    nextRid := s.nextRid + recipientIds.length }
  let emits := (recipientIds.filter (fun u => isUserOnline s u)).map
    (fun u => (⟨(s.conns.filter (fun c => c.uid = u)).map (fun c => c.sid),
               Payload.notificationNew⟩ : Emit))
  (s', emits)

/-! ## Well-formed states

The spec's data-model invariant (§3): at most one live connection per
identity, distinct transport socket ids, the `activeConnections` map
mirroring the live sockets, and persisted ids below the id counters. These
hold along every execution in which each identity holds at most one
connection at a time (the regime the registry is designed for). -/

/-- Registry/persistence consistency invariant used as a hypothesis of the
functional-correctness theorems. -/
structure WF (s : ServerState) : Prop where
  activeEq : s.active = s.conns.map (fun c => (c.uid, c.sid))
  uidsNodup : (s.conns.map (fun c => c.uid)).Nodup
  sidsNodup : (s.conns.map (fun c => c.sid)).Nodup
  midsNodup : (s.messages.map (fun m => m.mid)).Nodup
  midsLt : ∀ m ∈ s.messages, m.mid < s.nextMid

/-! ## Generic helper lemmas -/

/-- In a list whose keys (under `f`) are distinct, `find?` by the key of a
member returns exactly that member. -/
theorem nodup_key_find {α : Type} {κ : Type} [DecidableEq κ] (f : α → κ)
    (l : List α) (c : α) (hnd : (l.map f).Nodup) (hc : c ∈ l) :
    l.find? (fun x => f x = f c) = some c := by
  induction l with
  | nil => simp at hc
  | cons a t ih =>
    rw [List.map_cons, List.nodup_cons] at hnd
    rcases List.mem_cons.mp hc with h | h
    · subst h
      exact List.find?_cons_of_pos _ (by simp)
    · have hne : ¬ f a = f c := fun he => hnd.1 (he ▸ List.mem_map_of_mem f h)
      rw [List.find?_cons_of_neg _ (by simp [hne])]
      exact ih hnd.2 h

/-- In a list whose keys (under `f`) are distinct, filtering by the key of
a member returns exactly that member. -/
theorem nodup_key_filter {α : Type} {κ : Type} [DecidableEq κ] (f : α → κ)
    (l : List α) (c : α) (hnd : (l.map f).Nodup) (hc : c ∈ l) :
    l.filter (fun x => f x = f c) = [c] := by
  induction l with
  | nil => simp at hc
  | cons a t ih =>
    rw [List.map_cons, List.nodup_cons] at hnd
    rcases List.mem_cons.mp hc with h | h
    · subst h
      have ht : t.filter (fun x => f x = f c) = [] := by
        rw [List.filter_eq_nil_iff]
        intro x hx
        simp only [decide_eq_true_eq]
        exact fun he => hnd.1 (he ▸ List.mem_map_of_mem f hx)
      simp [List.filter_cons, ht]
    · have hne : ¬ f a = f c := fun he => hnd.1 (he ▸ List.mem_map_of_mem f h)
      simp [List.filter_cons, hne, ih hnd.2 h]

/-- A key deleted from the map is no longer found. -/
theorem mapGet_mapDelete_self (m : List (String × Nat)) (k : String) :
    mapGet (mapDelete m k) k = none := by
  have h : (mapDelete m k).find? (fun p => p.1 = k) = none := by
    rw [List.find?_eq_none]
    intro p hp
    have := List.of_mem_filter hp
    simpa using this
  simp [mapGet, h]

/-- The `has` check after `delete` of the same key is false. -/
theorem mapHas_mapDelete_self (m : List (String × Nat)) (k : String) :
    mapHas (mapDelete m k) k = false := by
  have h : (mapDelete m k).find? (fun p => p.1 = k) = none := by
    rw [List.find?_eq_none]
    intro p hp
    simpa using List.of_mem_filter hp
  simp [mapHas, h]

/-- Two members of a list with distinct keys that share a key are equal. -/
theorem nodup_key_eq {α : Type} {κ : Type} [DecidableEq κ] (f : α → κ)
    (l : List α) (c d : α) (hnd : (l.map f).Nodup) (hc : c ∈ l) (hd : d ∈ l)
    (h : f c = f d) : c = d := by
  have h1 := nodup_key_find f l c hnd hc
  have h2 := nodup_key_find f l d hnd hd
  rw [h] at h1
  rw [h1] at h2
  exact Option.some.inj h2

/-- In a well-formed state, an identity is online iff some live socket is
authenticated as it. -/
theorem isUserOnline_iff (s : ServerState) (hwf : WF s) (B : String) :
    isUserOnline s B = true ↔ ∃ c ∈ s.conns, c.uid = B := by
  unfold isUserOnline mapHas
  rw [hwf.activeEq, List.find?_isSome]
  constructor
  · rintro ⟨p, hp, hpB⟩
    rcases List.mem_map.mp hp with ⟨c, hc, rfl⟩
    exact ⟨c, hc, by simpa using hpB⟩
  · rintro ⟨c, hc, hcB⟩
    exact ⟨(c.uid, c.sid), List.mem_map_of_mem _ hc, by simpa using hcB⟩

/-- In a well-formed state, the registry lookup of a live socket's identity
returns that socket's handle. -/
theorem lookupConnection_eq (s : ServerState) (hwf : WF s) (cB : Conn)
    (hcB : cB ∈ s.conns) : lookupConnection s cB.uid = some cB.sid := by
  unfold lookupConnection mapGet
  rw [hwf.activeEq]
  have hnd : ((s.conns.map (fun c => (c.uid, c.sid))).map
      (fun p => p.1)).Nodup := by
    rw [List.map_map]
    simpa [Function.comp] using hwf.uidsNodup
  have hfind := nodup_key_find (fun p : String × Nat => p.1)
      (s.conns.map (fun c => (c.uid, c.sid))) (cB.uid, cB.sid) hnd
      (List.mem_map_of_mem _ hcB)
  simp only at hfind
  rw [hfind]
  rfl

/-- In a well-formed state, the sockets in room `user:${u}` of a live
socket's identity are exactly that socket. -/
theorem conns_filter_uid (s : ServerState) (hwf : WF s) (cB : Conn)
    (hcB : cB ∈ s.conns) : s.conns.filter (fun c => c.uid = cB.uid) = [cB] := by
  simpa using nodup_key_filter (fun x => x.uid) s.conns cB hwf.uidsNodup hcB

/-- In a well-formed state, the room of an offline identity is empty. -/
theorem conns_filter_uid_nil (s : ServerState) (hwf : WF s) (B : String)
    (hoff : isUserOnline s B = false) :
    s.conns.filter (fun c => c.uid = B) = [] := by
  rw [List.filter_eq_nil_iff]
  intro c hc
  simp only [decide_eq_true_eq]
  intro hcB
  have hon : isUserOnline s B = true := (isUserOnline_iff s hwf B).mpr ⟨c, hc, hcB⟩
  rw [hoff] at hon
  cases hon

/-! ## C1 — stale unregister -/

/-- C1 (counterexample): the claim asserts that after a second connection
(socket 1) registers for identity "a", a disconnect of the stale first
connection (socket 0) leaves the entry in place, `lookup("a") = socket 1`
and `isOnline("a") = true`. In the code the disconnect handler runs
`activeConnections.delete(userId)` without comparing handles, so after the
stale disconnect the entry is gone: `isOnline("a")` is false and lookup
returns none. -/
theorem claim1_counterexample :
    lookupConnection ((handleConnection (handleConnection
        (initState ["a"]) 0 "a").1 1 "a").1) "a" = some 1 ∧
    isUserOnline ((handleDisconnect ((handleConnection (handleConnection
        (initState ["a"]) 0 "a").1 1 "a").1) 0).1) "a" = false ∧
    lookupConnection ((handleDisconnect ((handleConnection (handleConnection
        (initState ["a"]) 0 "a").1 1 "a").1) 0).1) "a" = none := by
  decide

/-- C1 (amended): the disconnect handler of a live socket removes the
registry entry for that socket's identity unconditionally — it never
compares the stored handle with the disconnecting one — so whenever the
handler finds the disconnecting socket, `isOnline` of its identity is false
and `lookup` returns none afterwards, even if a newer connection had
re-registered the identity. -/
theorem claim1_unregister_unconditional (s : ServerState) (c1 : Conn)
    (hfind : s.conns.find? (fun d => d.sid = c1.sid) = some c1) :
    isUserOnline (handleDisconnect s c1.sid).1 c1.uid = false ∧
    lookupConnection (handleDisconnect s c1.sid).1 c1.uid = none := by
  unfold handleDisconnect
  rw [hfind]
  exact ⟨mapHas_mapDelete_self _ _, mapGet_mapDelete_self _ _⟩

/-- C1 witness: the amended theorem applied to the concrete double-connect
state (sockets 0 and 1 both authenticated as "a", socket 1 registered). -/
theorem claim1_unregister_unconditional_witness :
    isUserOnline (handleDisconnect
      ⟨["a"], [⟨0, "a"⟩, ⟨1, "a"⟩], [("a", 1)], [], [], [], [], [],
       0, 0, 0, 0⟩ 0).1 "a" = false ∧
    lookupConnection (handleDisconnect
      ⟨["a"], [⟨0, "a"⟩, ⟨1, "a"⟩], [("a", 1)], [], [], [], [], [],
       0, 0, 0, 0⟩ 0).1 "a" = none :=
  claim1_unregister_unconditional
    ⟨["a"], [⟨0, "a"⟩, ⟨1, "a"⟩], [("a", 1)], [], [], [], [], [], 0, 0, 0, 0⟩
    ⟨0, "a"⟩ (by decide)

/-! ## C7 — markRead on a missing message id -/

/-- C7: when no persisted message has the given id, the `message:read`
handler leaves the whole state unchanged (the update affects zero rows:
Prisma's update throws P2025 and the catch block swallows it), emits no
event to anyone, and returns normally — no error is surfaced to the
caller. -/
theorem claim7_markRead_missing_id (s : ServerState) (readerSid messageId : Nat)
    (hmiss : findMessageById s messageId = none) :
    (handleMessageRead s readerSid messageId).1 = s ∧
    (handleMessageRead s readerSid messageId).2 = [] := by
  unfold findMessageById at hmiss
  have hany : s.messages.any (fun m => m.mid = messageId) = false := by
    rw [List.any_eq_false]
    intro m hm
    have := List.find?_eq_none.mp hmiss m hm
    simpa using this
  unfold handleMessageRead
  simp [hany]

/-- C7 witness: the theorem applied to a concrete state holding one
message with id 0 and a markRead on the unknown id 7. -/
theorem claim7_markRead_missing_id_witness :
    (handleMessageRead ⟨["a", "b"], [⟨0, "a"⟩, ⟨1, "b"⟩],
        [("a", 0), ("b", 1)], [⟨0, "hi", "a", "b", false⟩], [], [], [], [],
        1, 0, 0, 0⟩ 1 7).1
      = ⟨["a", "b"], [⟨0, "a"⟩, ⟨1, "b"⟩], [("a", 0), ("b", 1)],
         [⟨0, "hi", "a", "b", false⟩], [], [], [], [], 1, 0, 0, 0⟩ ∧
    (handleMessageRead ⟨["a", "b"], [⟨0, "a"⟩, ⟨1, "b"⟩],
        [("a", 0), ("b", 1)], [⟨0, "hi", "a", "b", false⟩], [], [], [], [],
        1, 0, 0, 0⟩ 1 7).2 = [] :=
  claim7_markRead_missing_id
    ⟨["a", "b"], [⟨0, "a"⟩, ⟨1, "b"⟩], [("a", 0), ("b", 1)],
     [⟨0, "hi", "a", "b", false⟩], [], [], [], [], 1, 0, 0, 0⟩ 1 7 (by decide)

/-! ## C2 — marking a message read twice -/

/-- C2 (counterexample): the claim asserts that a second `markRead` on an
already-read message produces zero additional `message:read` events. In
the concrete state where message 0 from "a" to "b" is already read and
both users are connected, the reader "b" (socket 1) invoking the handler
again produces one more `message:read` delivery to the sender. -/
theorem claim2_counterexample :
    findMessageById ⟨["a", "b"], [⟨0, "a"⟩, ⟨1, "b"⟩], [("a", 0), ("b", 1)],
        [⟨0, "hi", "a", "b", true⟩], [], [], [], [], 1, 0, 0, 0⟩ 0
      = some ⟨0, "hi", "a", "b", true⟩ ∧
    messageReadDeliveries ((handleMessageRead ⟨["a", "b"],
        [⟨0, "a"⟩, ⟨1, "b"⟩], [("a", 0), ("b", 1)],
        [⟨0, "hi", "a", "b", true⟩], [], [], [], [], 1, 0, 0, 0⟩ 1 0).2) = 1 := by
  decide

/-- C2 (amended): a second `markRead` on an already-read message does not
error and leaves the message store unchanged (the flag write is an
idempotent no-op), but it is NOT event-idempotent: whenever the original
sender is connected on a socket other than the reader's, the handler
pushes one additional `message:read` event to the sender's socket. -/
theorem claim2_markRead_second_call (s : ServerState) (readerSid : Nat)
    (msg : Message) (cS : Conn) (hwf : WF s) (hmem : msg ∈ s.messages)
    (hread : msg.isRead = true) (hcS : cS ∈ s.conns)
    (hsender : cS.uid = msg.senderId) (hne : ¬ cS.sid = readerSid) :
    (handleMessageRead s readerSid msg.mid).1.messages = s.messages ∧
    (handleMessageRead s readerSid msg.mid).2
      = [⟨[cS.sid], .messageRead msg.mid⟩] ∧
    messageReadDeliveries (handleMessageRead s readerSid msg.mid).2 = 1 := by
  have hany : s.messages.any (fun m => m.mid = msg.mid) = true := by
    rw [List.any_eq_true]
    exact ⟨msg, hmem, by simp⟩
  have hmap : s.messages.map (fun m =>
      if m.mid = msg.mid then { m with isRead := true } else m) = s.messages := by
    have hpt : ∀ m ∈ s.messages,
        (if m.mid = msg.mid then { m with isRead := true } else m) = m := by
      intro m hm
      by_cases h : m.mid = msg.mid
      · have hmeq : m = msg :=
          nodup_key_eq (fun x => x.mid) s.messages m msg hwf.midsNodup hm hmem h
        subst hmeq
        simp only [if_pos h]
        cases m
        simp_all
      · simp [h]
    calc s.messages.map (fun m =>
            if m.mid = msg.mid then { m with isRead := true } else m)
        = s.messages.map id := List.map_congr_left hpt
      _ = s.messages := List.map_id s.messages
  have hfind : s.messages.find? (fun m => m.mid = msg.mid) = some msg :=
    nodup_key_find (fun x => x.mid) s.messages msg hwf.midsNodup hmem
  have hfilter : s.conns.filter (fun c => c.uid = msg.senderId) = [cS] := by
    have h0 := nodup_key_filter (fun x => x.uid) s.conns cS hwf.uidsNodup hcS
    simpa [hsender] using h0
  unfold handleMessageRead
  simp [hany, hmap, hfind, socketTo, hfilter, hne, messageReadDeliveries]

/-- C2 witness: the amended theorem applied to the concrete already-read
state (message 0 from "a" to "b", isRead already true, sender on socket 0,
reader on socket 1). -/
theorem claim2_markRead_second_call_witness :
    (handleMessageRead ⟨["a", "b"], [⟨0, "a"⟩, ⟨1, "b"⟩],
        [("a", 0), ("b", 1)], [⟨0, "hi", "a", "b", true⟩], [], [], [], [],
        1, 0, 0, 0⟩ 1 0).1.messages = [⟨0, "hi", "a", "b", true⟩] ∧
    (handleMessageRead ⟨["a", "b"], [⟨0, "a"⟩, ⟨1, "b"⟩],
        [("a", 0), ("b", 1)], [⟨0, "hi", "a", "b", true⟩], [], [], [], [],
        1, 0, 0, 0⟩ 1 0).2 = [⟨[0], .messageRead 0⟩] ∧
    messageReadDeliveries (handleMessageRead ⟨["a", "b"],
        [⟨0, "a"⟩, ⟨1, "b"⟩], [("a", 0), ("b", 1)],
        [⟨0, "hi", "a", "b", true⟩], [], [], [], [], 1, 0, 0, 0⟩ 1 0).2 = 1 :=
  claim2_markRead_second_call
    ⟨["a", "b"], [⟨0, "a"⟩, ⟨1, "b"⟩], [("a", 0), ("b", 1)],
     [⟨0, "hi", "a", "b", true⟩], [], [], [], [], 1, 0, 0, 0⟩ 1
    ⟨0, "hi", "a", "b", true⟩ ⟨0, "a"⟩
    ⟨rfl, by decide, by decide, by decide, by decide⟩
    (by decide) rfl (by decide) rfl (by decide)

/-! ## C3 — message delivery -/

/-- C3 (counterexample): the claim asserts that a send pushes exactly one
`message:receive` delivery whenever the receiver is registered at send
time, for every sender and receiver. With user "a" connected on socket 0
and registered, a send from "a" to receiver "a" persists the message but
produces zero deliveries, because `socket.to(room)` excludes the emitting
socket. -/
theorem claim3_counterexample :
    isUserOnline ⟨["a"], [⟨0, "a"⟩], [("a", 0)], [], [], [], [], [],
        0, 0, 0, 0⟩ "a" = true ∧
    (handleMessageSend ⟨["a"], [⟨0, "a"⟩], [("a", 0)], [], [], [], [], [],
        0, 0, 0, 0⟩ 0 "a" "hi").1.messages = [⟨0, "hi", "a", "a", false⟩] ∧
    messageDeliveries ((handleMessageSend ⟨["a"], [⟨0, "a"⟩], [("a", 0)],
        [], [], [], [], [], 0, 0, 0, 0⟩ 0 "a" "hi").2) = 0 := by
  decide

/-- C3 (amended): for a sender connected as A and a DISTINCT receiver B
that exists in the user table, the send persists the message (retrievable
afterwards by persistence lookup); if B is registered at send time exactly
one `message:receive` delivery carrying the persisted message reaches the
handle stored for B in the registry, and if B is not registered there are
zero deliveries. (The distinctness proviso is forced: a self-send is
dropped because the room broadcast excludes the emitting socket.) -/
theorem claim3_message_send_delivery (s : ServerState) (cA : Conn)
    (B content : String) (hwf : WF s) (hcA : cA ∈ s.conns)
    (hAu : s.users.contains cA.uid = true) (hBu : s.users.contains B = true)
    (hAB : ¬ cA.uid = B) :
    (handleMessageSend s cA.sid B content).1.messages
      = s.messages ++ [⟨s.nextMid, content, cA.uid, B, false⟩] ∧
    findMessageById (handleMessageSend s cA.sid B content).1 s.nextMid
      = some ⟨s.nextMid, content, cA.uid, B, false⟩ ∧
    (isUserOnline s B = true →
      (handleMessageSend s cA.sid B content).2
        = [⟨[(lookupConnection s B).getD 0],
            .messageReceive ⟨s.nextMid, content, cA.uid, B, false⟩⟩,
           ⟨[(lookupConnection s B).getD 0], .notificationNew⟩] ∧
      messageDeliveries (handleMessageSend s cA.sid B content).2 = 1) ∧
    (isUserOnline s B = false →
      messageDeliveries (handleMessageSend s cA.sid B content).2 = 0) := by
  have hfindA : s.conns.find? (fun c => c.sid = cA.sid) = some cA :=
    nodup_key_find (fun x => x.sid) s.conns cA hwf.sidsNodup hcA
  have hcond : s.users.contains cA.uid = true ∧ s.users.contains B = true :=
    ⟨hAu, hBu⟩
  have hfind0 : s.messages.find? (fun m => m.mid = s.nextMid) = none := by
    rw [List.find?_eq_none]
    intro m hm
    simpa using Nat.ne_of_lt (hwf.midsLt m hm)
  unfold handleMessageSend
  rw [hfindA]
  simp only [if_pos hcond]
  refine ⟨trivial, ?_, ?_, ?_⟩
  · unfold findMessageById
    simp only [List.find?_append, hfind0, Option.none_orElse]
    simp
  · intro hon
    obtain ⟨cB, hcB, hcBuid⟩ := (isUserOnline_iff s hwf B).mp hon
    have hlook : lookupConnection s B = some cB.sid := by
      rw [← hcBuid]
      exact lookupConnection_eq s hwf cB hcB
    have hfilterB : s.conns.filter (fun c => c.uid = B) = [cB] := by
      rw [← hcBuid]
      exact conns_filter_uid s hwf cB hcB
    have hsidne : ¬ cB.sid = cA.sid := by
      intro he
      have hBA : cB = cA :=
        nodup_key_eq (fun x => x.sid) s.conns cB cA hwf.sidsNodup hcB hcA he
      rw [hBA] at hcBuid
      exact hAB hcBuid
    constructor
    · simp [socketTo, hfilterB, hsidne, hlook]
    · simp [socketTo, hfilterB, hsidne, messageDeliveries]
  · intro hoff
    have hnil := conns_filter_uid_nil s hwf B hoff
    simp [socketTo, hnil, messageDeliveries]

/-- C3 witness: the amended theorem applied to the concrete state with
sender "a" on socket 0 and receiver "b" registered on socket 1. -/
theorem claim3_message_send_delivery_witness :
    (handleMessageSend ⟨["a", "b"], [⟨0, "a"⟩, ⟨1, "b"⟩],
        [("a", 0), ("b", 1)], [], [], [], [], [], 0, 0, 0, 0⟩ 0 "b" "hi").1.messages
      = [] ++ [⟨0, "hi", "a", "b", false⟩] ∧
    findMessageById (handleMessageSend ⟨["a", "b"], [⟨0, "a"⟩, ⟨1, "b"⟩],
        [("a", 0), ("b", 1)], [], [], [], [], [], 0, 0, 0, 0⟩ 0 "b" "hi").1 0
      = some ⟨0, "hi", "a", "b", false⟩ ∧
    (isUserOnline ⟨["a", "b"], [⟨0, "a"⟩, ⟨1, "b"⟩], [("a", 0), ("b", 1)],
        [], [], [], [], [], 0, 0, 0, 0⟩ "b" = true →
      (handleMessageSend ⟨["a", "b"], [⟨0, "a"⟩, ⟨1, "b"⟩],
          [("a", 0), ("b", 1)], [], [], [], [], [], 0, 0, 0, 0⟩ 0 "b" "hi").2
        = [⟨[(lookupConnection ⟨["a", "b"], [⟨0, "a"⟩, ⟨1, "b"⟩],
              [("a", 0), ("b", 1)], [], [], [], [], [], 0, 0, 0, 0⟩ "b").getD 0],
            .messageReceive ⟨0, "hi", "a", "b", false⟩⟩,
           ⟨[(lookupConnection ⟨["a", "b"], [⟨0, "a"⟩, ⟨1, "b"⟩],
              [("a", 0), ("b", 1)], [], [], [], [], [], 0, 0, 0, 0⟩ "b").getD 0],
            .notificationNew⟩] ∧
      messageDeliveries (handleMessageSend ⟨["a", "b"], [⟨0, "a"⟩, ⟨1, "b"⟩],
          [("a", 0), ("b", 1)], [], [], [], [], [], 0, 0, 0, 0⟩ 0 "b" "hi").2 = 1) ∧
    (isUserOnline ⟨["a", "b"], [⟨0, "a"⟩, ⟨1, "b"⟩], [("a", 0), ("b", 1)],
        [], [], [], [], [], 0, 0, 0, 0⟩ "b" = false →
      messageDeliveries (handleMessageSend ⟨["a", "b"], [⟨0, "a"⟩, ⟨1, "b"⟩],
          [("a", 0), ("b", 1)], [], [], [], [], [], 0, 0, 0, 0⟩ 0 "b" "hi").2 = 0) :=
  claim3_message_send_delivery
    ⟨["a", "b"], [⟨0, "a"⟩, ⟨1, "b"⟩], [("a", 0), ("b", 1)], [], [], [], [],
     [], 0, 0, 0, 0⟩ ⟨0, "a"⟩ "b" "hi"
    ⟨rfl, by decide, by decide, by decide, by decide⟩
    (by decide) (by decide) (by decide) (by decide)

/-! ## C4 — empty-content validation -/

/-- C4 (counterexample): the claim asserts every empty-content send fails
with a ValidationError and performs no persistence write. The socket
`message:send` handler has no content validation: with "a" connected on
socket 0 and receiver "b" existing, an empty-content send persists one
Message row and one Notification row. -/
theorem claim4_counterexample :
    (handleMessageSend ⟨["a", "b"], [⟨0, "a"⟩], [("a", 0)], [], [], [], [],
        [], 0, 0, 0, 0⟩ 0 "b" "").1.messages = [⟨0, "", "a", "b", false⟩] ∧
    (handleMessageSend ⟨["a", "b"], [⟨0, "a"⟩], [("a", 0)], [], [], [], [],
        [], 0, 0, 0, 0⟩ 0 "b" "").1.notifs
      = [⟨0, .MESSAGE, some "a", none⟩] := by
  decide

/-- C4 (amended): the REST send endpoint rejects an empty content with a
ValidationError (HTTP 400) before any persistence write, leaving the state
untouched; the socket `message:send` handler performs no content
validation, so an empty-content send from a connected sender to an
existing receiver is persisted as a Message row rather than rejected. -/
theorem claim4_empty_content (s : ServerState) (senderId receiverId : String)
    (cA : Conn) (hwf : WF s) (hcA : cA ∈ s.conns)
    (hAu : s.users.contains cA.uid = true)
    (hBu : s.users.contains receiverId = true) :
    sendMessageRoute s senderId receiverId "" = (s, SendResult.validationError) ∧
    (handleMessageSend s cA.sid receiverId "").1.messages
      = s.messages ++ [⟨s.nextMid, "", cA.uid, receiverId, false⟩] := by
  constructor
  · unfold sendMessageRoute
    simp
  · have hfindA : s.conns.find? (fun c => c.sid = cA.sid) = some cA :=
      nodup_key_find (fun x => x.sid) s.conns cA hwf.sidsNodup hcA
    have hAu' : cA.uid ∈ s.users := by simpa using hAu
    have hBu' : receiverId ∈ s.users := by simpa using hBu
    unfold handleMessageSend
    rw [hfindA]
    simp [hAu', hBu']

/-- C4 witness: the amended theorem at the concrete two-user state with
the sender connected on socket 0. -/
theorem claim4_empty_content_witness :
    sendMessageRoute ⟨["a", "b"], [⟨0, "a"⟩], [("a", 0)], [], [], [], [],
        [], 0, 0, 0, 0⟩ "a" "b" "" = (⟨["a", "b"], [⟨0, "a"⟩], [("a", 0)],
        [], [], [], [], [], 0, 0, 0, 0⟩, SendResult.validationError) ∧
    (handleMessageSend ⟨["a", "b"], [⟨0, "a"⟩], [("a", 0)], [], [], [], [],
        [], 0, 0, 0, 0⟩ 0 "b" "").1.messages
      = [] ++ [⟨0, "", "a", "b", false⟩] :=
  claim4_empty_content
    ⟨["a", "b"], [⟨0, "a"⟩], [("a", 0)], [], [], [], [], [], 0, 0, 0, 0⟩
    "a" "b" ⟨0, "a"⟩
    ⟨rfl, by decide, by decide, by decide, by decide⟩
    (by decide) (by decide) (by decide)

/-! ## C5 — unknown receiver -/

/-- C5: sending to a receiver id that identifies no user fails the send
and creates no orphaned message. The REST route checks the receiver
against the persistence collaborator and answers 404 before the create;
the socket handler's `prisma.message.create` is rejected by the
receiverId foreign key (P2003) before any row is written, the catch
swallows the error, and no event is emitted — in both paths the state is
unchanged. -/
theorem claim5_unknown_receiver (s : ServerState)
    (senderId receiverId content : String) (cA : Conn) (hwf : WF s)
    (hcA : cA ∈ s.conns) (hc : ¬ content = "")
    (hB : s.users.contains receiverId = false) :
    sendMessageRoute s senderId receiverId content
      = (s, SendResult.notFoundError) ∧
    (handleMessageSend s cA.sid receiverId content).1 = s ∧
    (handleMessageSend s cA.sid receiverId content).2 = [] := by
  have hfindA : s.conns.find? (fun c => c.sid = cA.sid) = some cA :=
    nodup_key_find (fun x => x.sid) s.conns cA hwf.sidsNodup hcA
  have hB' : ¬ receiverId ∈ s.users := by simpa using hB
  refine ⟨?_, ?_, ?_⟩
  · unfold sendMessageRoute
    simp [hc, hB']
  · unfold handleMessageSend
    rw [hfindA]
    simp [hB']
  · unfold handleMessageSend
    rw [hfindA]
    simp [hB']

/-- C5 witness: the theorem at a concrete state where only "a" exists and
the receiver id "ghost" identifies no user. -/
theorem claim5_unknown_receiver_witness :
    sendMessageRoute ⟨["a"], [⟨0, "a"⟩], [("a", 0)], [], [], [], [], [],
        0, 0, 0, 0⟩ "a" "ghost" "hi"
      = (⟨["a"], [⟨0, "a"⟩], [("a", 0)], [], [], [], [], [], 0, 0, 0, 0⟩,
         SendResult.notFoundError) ∧
    (handleMessageSend ⟨["a"], [⟨0, "a"⟩], [("a", 0)], [], [], [], [], [],
        0, 0, 0, 0⟩ 0 "ghost" "hi").1
      = ⟨["a"], [⟨0, "a"⟩], [("a", 0)], [], [], [], [], [], 0, 0, 0, 0⟩ ∧
    (handleMessageSend ⟨["a"], [⟨0, "a"⟩], [("a", 0)], [], [], [], [], [],
        0, 0, 0, 0⟩ 0 "ghost" "hi").2 = [] :=
  claim5_unknown_receiver
    ⟨["a"], [⟨0, "a"⟩], [("a", 0)], [], [], [], [], [], 0, 0, 0, 0⟩
    "a" "ghost" "hi" ⟨0, "a"⟩
    ⟨rfl, by decide, by decide, by decide, by decide⟩
    (by decide) (by decide) (by decide)

/-! ## C6 — notification fanout and no self-notification -/

/-- C6: `notify` with actor A and recipient set {B, C} persists exactly
one Notification row and exactly one NotificationReceiver row per
recipient, each starting unread; and a like of one's own post (the
like route's `post.userId !== req.user.id` guard) creates zero
Notification and zero NotificationReceiver rows. -/
theorem claim6_notification_fanout (s : ServerState)
    (ntype : NotificationType) (A B C : String) (entityId : Option Nat)
    (post : Post)
    (hfound : s.posts.find? (fun p => p.pid = post.pid) = some post)
    (hown : post.userId = A)
    (hnolike : s.likes.any (fun l => l.postId = post.pid ∧ l.userId = A)
      = false) :
    (notify s ntype (some A) [B, C] entityId).1.notifs
      = s.notifs ++ [⟨s.nextNid, ntype, some A, entityId⟩] ∧
    (notify s ntype (some A) [B, C] entityId).1.nreceivers
      = s.nreceivers ++ [⟨s.nextRid, s.nextNid, B, false⟩,
                         ⟨s.nextRid + 1, s.nextNid, C, false⟩] ∧
    (likePost s A post.pid).1.notifs = s.notifs ∧
    (likePost s A post.pid).1.nreceivers = s.nreceivers := by
  have hnolike' : ¬ ∃ x ∈ s.likes, x.postId = post.pid ∧ x.userId = A := by
    simpa using hnolike
  refine ⟨rfl, ?_, ?_, ?_⟩
  · simp [notify, List.range_succ]
  · unfold likePost
    rw [hfound]
    simp [hnolike', hown]
  · unfold likePost
    rw [hfound]
    simp [hnolike', hown]

/-- C6 witness: the theorem at a concrete state with one post owned by
"a", no likes, and fanout recipients {"b", "c"}. -/
theorem claim6_notification_fanout_witness :
    (notify ⟨["a", "b", "c"], [], [], [], [], [], [⟨0, "a"⟩], [],
        0, 0, 0, 0⟩ .LIKE (some "a") ["b", "c"] (some 0)).1.notifs
      = [] ++ [⟨0, .LIKE, some "a", some 0⟩] ∧
    (notify ⟨["a", "b", "c"], [], [], [], [], [], [⟨0, "a"⟩], [],
        0, 0, 0, 0⟩ .LIKE (some "a") ["b", "c"] (some 0)).1.nreceivers
      = [] ++ [⟨0, 0, "b", false⟩, ⟨0 + 1, 0, "c", false⟩] ∧
    (likePost ⟨["a", "b", "c"], [], [], [], [], [], [⟨0, "a"⟩], [],
        0, 0, 0, 0⟩ "a" 0).1.notifs = [] ∧
    (likePost ⟨["a", "b", "c"], [], [], [], [], [], [⟨0, "a"⟩], [],
        0, 0, 0, 0⟩ "a" 0).1.nreceivers = [] :=
  claim6_notification_fanout
    ⟨["a", "b", "c"], [], [], [], [], [], [⟨0, "a"⟩], [], 0, 0, 0, 0⟩
    .LIKE "a" "b" "c" (some 0) ⟨0, "a"⟩ (by decide) (by decide) (by decide)

/-! ## C8 — markAllRead -/

/-- After the batch update of `PUT /read-all`, every receiver row of the
user is read. -/
theorem markAllRead_all_read (u : String) (l : List NotificationReceiver) :
    ∀ r ∈ l.map (fun r => if r.userId = u ∧ r.isRead = false
        then { r with isRead := true } else r),
      r.userId = u → r.isRead = true := by
  intro r hr hru
  rcases List.mem_map.mp hr with ⟨a, ha, rfl⟩
  by_cases hc : a.userId = u ∧ a.isRead = false
  · simp [hc]
  · rw [if_neg hc] at hru ⊢
    rcases Bool.eq_false_or_eq_true a.isRead with ht | hf
    · exact ht
    · exact absurd ⟨hru, hf⟩ hc

/-- After the batch update of `PUT /read-all`, no receiver row of the user
is unread. -/
theorem markAllRead_none_unread (u : String) (l : List NotificationReceiver) :
    ((l.map (fun r => if r.userId = u ∧ r.isRead = false
        then { r with isRead := true } else r)).filter
      (fun r => r.userId = u ∧ r.isRead = false)).length = 0 := by
  rw [List.length_eq_zero, List.filter_eq_nil_iff]
  intro r hr
  rcases List.mem_map.mp hr with ⟨a, ha, rfl⟩
  by_cases hc : a.userId = u ∧ a.isRead = false
  · simp [hc]
  · rw [if_neg hc]
    simpa using hc

/-- C8: `markAllRead(U)` answers 200 unconditionally (also with zero
unread rows), afterwards every NotificationReceiver row of U is read, and
the unread-notification count of U — the number of NotificationReceiver
rows of U with isRead=false — is 0. -/
theorem claim8_markAllRead_clears_unread (s : ServerState) (u : String) :
    (markAllReadRoute s u).2 = 200 ∧
    (((markAllReadRoute s u).1.nreceivers.filter
        (fun r => r.userId = u)).all (fun r => r.isRead)) = true ∧
    countUnreadNotifications (markAllReadRoute s u).1 u = 0 := by
  refine ⟨rfl, ?_, ?_⟩
  · rw [List.all_eq_true]
    intro r hr
    have h := List.mem_filter.mp hr
    exact markAllRead_all_read u s.nreceivers r h.1 (by simpa using h.2)
  · exact markAllRead_none_unread u s.nreceivers

/-! ## C9 — presence broadcasts -/

/-- An entry of the map after `set` is an old entry or the new binding. -/
theorem mapSet_mem {m : List (String × Nat)} {k : String} {v : Nat}
    {p : String × Nat} (hp : p ∈ mapSet m k v) : p ∈ m ∨ p = (k, v) := by
  unfold mapSet at hp
  by_cases h : (m.any (fun q => q.1 = k)) = true
  · simp only [h, if_true] at hp
    rcases List.mem_map.mp hp with ⟨q, hq, hpq⟩
    by_cases hqk : q.1 = k
    · right
      rw [← hpq]
      simp [hqk]
    · left
      rw [← hpq]
      simpa [hqk] using hq
  · simp only [h, if_false, Bool.false_eq_true] at hp
    rcases List.mem_append.mp hp with h1 | h1
    · exact Or.inl h1
    · right
      simpa using h1

/-- C9: a register broadcasts exactly one `{identity, status: online}`
event, whose receiver set is all connected sockets — every handle stored
in the registry after the registration, including the registering
identity's own new socket; and the disconnect of a live socket broadcasts
exactly one `{identity, status: offline}` event to all remaining sockets.
Each handler invocation emits exactly one presence event. -/
theorem claim9_presence_broadcast (s : ServerState) (sid : Nat)
    (uid : String) (c : Conn) (hwf : WF s) (hmem : c ∈ s.conns) :
    (handleConnection s sid uid).2
      = [⟨ioEmitAll (handleConnection s sid uid).1, .userStatus uid true⟩] ∧
    ioEmitAll (handleConnection s sid uid).1
      = s.conns.map (fun d => d.sid) ++ [sid] ∧
    ((handleConnection s sid uid).1.active).all
      (fun p => decide (p.2 ∈ ioEmitAll (handleConnection s sid uid).1))
      = true ∧
    sid ∈ ioEmitAll (handleConnection s sid uid).1 ∧
    (handleDisconnect s c.sid).2
      = [⟨ioEmitAll (handleDisconnect s c.sid).1, .userStatus c.uid false⟩] ∧
    ioEmitAll (handleDisconnect s c.sid).1
      = (s.conns.filter (fun d => ¬ d.sid = c.sid)).map (fun d => d.sid) := by
  have hfindC : s.conns.find? (fun d => d.sid = c.sid) = some c :=
    nodup_key_find (fun x => x.sid) s.conns c hwf.sidsNodup hmem
  refine ⟨rfl, by simp [handleConnection, ioEmitAll], ?_, ?_, ?_, ?_⟩
  · rw [List.all_eq_true]
    intro p hp
    rw [decide_eq_true_eq]
    have hmem2 : p ∈ mapSet s.active uid sid := hp
    rcases mapSet_mem hmem2 with hold | hnew
    · rw [hwf.activeEq] at hold
      rcases List.mem_map.mp hold with ⟨d, hd, rfl⟩
      simp [ioEmitAll, handleConnection]
      exact Or.inl ⟨d, hd, rfl⟩
    · subst hnew
      simp [ioEmitAll, handleConnection]
  · simp [ioEmitAll, handleConnection]
  · unfold handleDisconnect
    rw [hfindC]
    rfl
  · unfold handleDisconnect
    rw [hfindC]
    rfl

/-- C9 witness: the theorem at the concrete state where "a" is connected
on socket 0, a new socket 1 registers as "b", and "a"'s socket 0
disconnects. -/
theorem claim9_presence_broadcast_witness :
    (handleConnection ⟨["a", "b"], [⟨0, "a"⟩], [("a", 0)], [], [], [], [],
        [], 0, 0, 0, 0⟩ 1 "b").2
      = [⟨ioEmitAll (handleConnection ⟨["a", "b"], [⟨0, "a"⟩], [("a", 0)],
          [], [], [], [], [], 0, 0, 0, 0⟩ 1 "b").1, .userStatus "b" true⟩] ∧
    ioEmitAll (handleConnection ⟨["a", "b"], [⟨0, "a"⟩], [("a", 0)], [],
        [], [], [], [], 0, 0, 0, 0⟩ 1 "b").1
      = ([⟨0, "a"⟩] : List Conn).map (fun d => d.sid) ++ [1] ∧
    ((handleConnection ⟨["a", "b"], [⟨0, "a"⟩], [("a", 0)], [], [], [], [],
        [], 0, 0, 0, 0⟩ 1 "b").1.active).all
      (fun p => decide (p.2 ∈ ioEmitAll (handleConnection ⟨["a", "b"],
        [⟨0, "a"⟩], [("a", 0)], [], [], [], [], [], 0, 0, 0, 0⟩ 1 "b").1))
      = true ∧
    1 ∈ ioEmitAll (handleConnection ⟨["a", "b"], [⟨0, "a"⟩], [("a", 0)],
        [], [], [], [], [], 0, 0, 0, 0⟩ 1 "b").1 ∧
    (handleDisconnect ⟨["a", "b"], [⟨0, "a"⟩], [("a", 0)], [], [], [], [],
        [], 0, 0, 0, 0⟩ 0).2
      = [⟨ioEmitAll (handleDisconnect ⟨["a", "b"], [⟨0, "a"⟩], [("a", 0)],
          [], [], [], [], [], 0, 0, 0, 0⟩ 0).1, .userStatus "a" false⟩] ∧
    ioEmitAll (handleDisconnect ⟨["a", "b"], [⟨0, "a"⟩], [("a", 0)], [],
        [], [], [], [], 0, 0, 0, 0⟩ 0).1
      = (([⟨0, "a"⟩] : List Conn).filter (fun d => ¬ d.sid = 0)).map
          (fun d => d.sid) :=
  claim9_presence_broadcast
    ⟨["a", "b"], [⟨0, "a"⟩], [("a", 0)], [], [], [], [], [], 0, 0, 0, 0⟩
    1 "b" ⟨0, "a"⟩
    ⟨rfl, by decide, by decide, by decide, by decide⟩
    (by decide)

/-! ## C10 — conversation fetch marks peer messages read -/

/-- A filter is unchanged by a map whose function preserves the predicate
and fixes every element satisfying it. -/
theorem filter_map_invariant {α : Type} (f : α → α) (p : α → Bool)
    (l : List α) (h1 : ∀ m, p (f m) = p m)
    (h2 : ∀ m, p m = true → f m = m) :
    (l.map f).filter p = l.filter p := by
  induction l with
  | nil => rfl
  | cons a t ih =>
    rw [List.map_cons, List.filter_cons, List.filter_cons, h1]
    by_cases hp : p a = true
    · rw [if_pos hp, if_pos hp, h2 a hp, ih]
    · rw [if_neg hp, if_neg hp, ih]

/-- After the conversation fetch's updateMany, every message from the peer
to the user is read. -/
theorem conversation_peer_read (userId peerId : String) (l : List Message) :
    ∀ m ∈ l.map (fun m =>
        if m.senderId = peerId ∧ m.receiverId = userId ∧ m.isRead = false
        then { m with isRead := true } else m),
      m.senderId = peerId → m.receiverId = userId → m.isRead = true := by
  intro m hm h1 h2
  rcases List.mem_map.mp hm with ⟨a, ha, rfl⟩
  by_cases hc : a.senderId = peerId ∧ a.receiverId = userId ∧ a.isRead = false
  · simp [hc]
  · rw [if_neg hc] at h1 h2 ⊢
    rcases Bool.eq_false_or_eq_true a.isRead with ht | hf
    · exact ht
    · exact absurd ⟨h1, h2, hf⟩ hc

/-- The conversation fetch's updateMany does not touch any field other
than isRead. -/
theorem conversation_fields_preserved (userId peerId : String)
    (l : List Message) :
    (l.map (fun m =>
        if m.senderId = peerId ∧ m.receiverId = userId ∧ m.isRead = false
        then { m with isRead := true } else m)).map
      (fun m => (m.mid, m.content, m.senderId, m.receiverId))
      = l.map (fun m => (m.mid, m.content, m.senderId, m.receiverId)) := by
  rw [List.map_map]
  apply List.map_congr_left
  intro a ha
  by_cases hc : a.senderId = peerId ∧ a.receiverId = userId ∧ a.isRead = false
  · simp [Function.comp, hc]
  · simp [Function.comp, hc]

/-- C10 (counterexample): the claim asserts both that every unread message
with senderId=P, receiverId=U is flipped to read and that messages sent by
U are left unchanged, quantified over every user U and peer P. For the
self-conversation P = U — user "u" fetching the conversation with
themselves while holding one unread self-message — the fetch flips a
message sent by "u", so the frame clause fails. -/
theorem claim10_counterexample :
    (getConversationRoute ⟨["u"], [], [], [⟨0, "note", "u", "u", false⟩],
        [], [], [], [], 1, 0, 0, 0⟩ "u" "u" 1 20).1.messages
      = [⟨0, "note", "u", "u", true⟩] := by
  decide

/-- C10 (amended): for a peer P distinct from the authenticated user U
and existing in the user table, the conversation fetch succeeds and its
only write side effect is the updateMany: every message from P to U
becomes read, messages sent by U and messages of other user pairs are
byte-for-byte unchanged, and no field other than isRead changes on any
message. (The distinctness proviso is forced: in the self-conversation
P = U the route flips U's own unread self-messages.) -/
theorem claim10_conversation_marks_read (s : ServerState)
    (userId peerId : String) (page limit : Nat) (hne : ¬ peerId = userId)
    (hP : s.users.contains peerId = true) :
    (getConversationRoute s userId peerId page limit).2.1 = true ∧
    (getConversationRoute s userId peerId page limit).1.messages
      = s.messages.map (fun m =>
          if m.senderId = peerId ∧ m.receiverId = userId ∧ m.isRead = false
          then { m with isRead := true } else m) ∧
    (((getConversationRoute s userId peerId page limit).1.messages.filter
        (fun m => m.senderId = peerId ∧ m.receiverId = userId)).all
      (fun m => m.isRead)) = true ∧
    ((getConversationRoute s userId peerId page limit).1.messages.filter
        (fun m => m.senderId = userId))
      = s.messages.filter (fun m => m.senderId = userId) ∧
    ((getConversationRoute s userId peerId page limit).1.messages.filter
        (fun m => ¬ (m.senderId = peerId ∧ m.receiverId = userId)))
      = s.messages.filter
          (fun m => ¬ (m.senderId = peerId ∧ m.receiverId = userId)) ∧
    ((getConversationRoute s userId peerId page limit).1.messages.map
        (fun m => (m.mid, m.content, m.senderId, m.receiverId)))
      = s.messages.map
          (fun m => (m.mid, m.content, m.senderId, m.receiverId)) := by
  have hP' : peerId ∈ s.users := by simpa using hP
  have hroute : getConversationRoute s userId peerId page limit
      = ({ s with messages := s.messages.map (fun m =>
            if m.senderId = peerId ∧ m.receiverId = userId ∧ m.isRead = false
            then { m with isRead := true } else m) }, true,
         ((((s.messages.filter (fun m =>
              (m.senderId = userId ∧ m.receiverId = peerId) ∨
              (m.senderId = peerId ∧ m.receiverId = userId))).reverse).drop
            ((page - 1) * limit)).take limit).reverse) := by
    unfold getConversationRoute
    rw [if_neg (by simpa using hP')]
  rw [hroute]
  refine ⟨rfl, rfl, ?_, ?_, ?_, ?_⟩
  · rw [List.all_eq_true]
    intro m hm
    have h := List.mem_filter.mp hm
    have h2 := h.2
    simp only [decide_eq_true_eq] at h2
    exact conversation_peer_read userId peerId s.messages m h.1 h2.1 h2.2
  · apply filter_map_invariant
    · intro m
      by_cases hc : m.senderId = peerId ∧ m.receiverId = userId ∧
          m.isRead = false
      · simp [hc, hc.1]
      · simp [hc]
    · intro m hm
      rw [decide_eq_true_eq] at hm
      have hcond : ¬ (m.senderId = peerId ∧ m.receiverId = userId ∧
          m.isRead = false) := by
        intro hc
        exact hne (by rw [← hc.1, hm])
      rw [if_neg hcond]
  · apply filter_map_invariant
    · intro m
      by_cases hc : m.senderId = peerId ∧ m.receiverId = userId ∧
          m.isRead = false
      · simp [hc, hc.1, hc.2.1]
      · simp [hc]
    · intro m hm
      simp only [decide_eq_true_eq] at hm
      have hcond : ¬ (m.senderId = peerId ∧ m.receiverId = userId ∧
          m.isRead = false) := by
        intro hc
        exact hm ⟨hc.1, hc.2.1⟩
      rw [if_neg hcond]
  · exact conversation_fields_preserved userId peerId s.messages

/-- C10 witness: the amended theorem at the concrete state with users "u"
and "p" and three messages: an unread one from "p" to "u", one sent by
"u" to "p", and one between "p" and a third user "x". -/
theorem claim10_conversation_marks_read_witness :
    (getConversationRoute ⟨["u", "p", "x"], [], [],
        [⟨0, "m0", "p", "u", false⟩, ⟨1, "m1", "u", "p", false⟩,
         ⟨2, "m2", "p", "x", false⟩], [], [], [], [], 3, 0, 0, 0⟩
        "u" "p" 1 20).2.1 = true ∧
    (getConversationRoute ⟨["u", "p", "x"], [], [],
        [⟨0, "m0", "p", "u", false⟩, ⟨1, "m1", "u", "p", false⟩,
         ⟨2, "m2", "p", "x", false⟩], [], [], [], [], 3, 0, 0, 0⟩
        "u" "p" 1 20).1.messages
      = ([⟨0, "m0", "p", "u", false⟩, ⟨1, "m1", "u", "p", false⟩,
         ⟨2, "m2", "p", "x", false⟩] : List Message).map (fun m =>
          if m.senderId = "p" ∧ m.receiverId = "u" ∧ m.isRead = false
          then { m with isRead := true } else m) ∧
    (((getConversationRoute ⟨["u", "p", "x"], [], [],
        [⟨0, "m0", "p", "u", false⟩, ⟨1, "m1", "u", "p", false⟩,
         ⟨2, "m2", "p", "x", false⟩], [], [], [], [], 3, 0, 0, 0⟩
        "u" "p" 1 20).1.messages.filter
        (fun m => m.senderId = "p" ∧ m.receiverId = "u")).all
      (fun m => m.isRead)) = true ∧
    ((getConversationRoute ⟨["u", "p", "x"], [], [],
        [⟨0, "m0", "p", "u", false⟩, ⟨1, "m1", "u", "p", false⟩,
         ⟨2, "m2", "p", "x", false⟩], [], [], [], [], 3, 0, 0, 0⟩
        "u" "p" 1 20).1.messages.filter (fun m => m.senderId = "u"))
      = ([⟨0, "m0", "p", "u", false⟩, ⟨1, "m1", "u", "p", false⟩,
         ⟨2, "m2", "p", "x", false⟩] : List Message).filter
          (fun m => m.senderId = "u") ∧
    ((getConversationRoute ⟨["u", "p", "x"], [], [],
        [⟨0, "m0", "p", "u", false⟩, ⟨1, "m1", "u", "p", false⟩,
         ⟨2, "m2", "p", "x", false⟩], [], [], [], [], 3, 0, 0, 0⟩
        "u" "p" 1 20).1.messages.filter
        (fun m => ¬ (m.senderId = "p" ∧ m.receiverId = "u")))
      = ([⟨0, "m0", "p", "u", false⟩, ⟨1, "m1", "u", "p", false⟩,
         ⟨2, "m2", "p", "x", false⟩] : List Message).filter
          (fun m => ¬ (m.senderId = "p" ∧ m.receiverId = "u")) ∧
    ((getConversationRoute ⟨["u", "p", "x"], [], [],
        [⟨0, "m0", "p", "u", false⟩, ⟨1, "m1", "u", "p", false⟩,
         ⟨2, "m2", "p", "x", false⟩], [], [], [], [], 3, 0, 0, 0⟩
        "u" "p" 1 20).1.messages.map
        (fun m => (m.mid, m.content, m.senderId, m.receiverId)))
      = ([⟨0, "m0", "p", "u", false⟩, ⟨1, "m1", "u", "p", false⟩,
         ⟨2, "m2", "p", "x", false⟩] : List Message).map
          (fun m => (m.mid, m.content, m.senderId, m.receiverId)) :=
  claim10_conversation_marks_read
    ⟨["u", "p", "x"], [], [], [⟨0, "m0", "p", "u", false⟩,
     ⟨1, "m1", "u", "p", false⟩, ⟨2, "m2", "p", "x", false⟩], [], [], [],
     [], 3, 0, 0, 0⟩ "u" "p" 1 20 (by decide) (by decide)

end SocialApp
